import Mathlib

/-!
# Mutual-fund calculator: a shallow embedding in Lean 4

This file embeds the calculation library of the `mutual-fund-calculator`
repository (`docs/assets/js/app.js`) and proves, or refutes, the frozen
claims about it.

Modelling conventions:

* JavaScript numbers are modelled by exact arithmetic: `ℚ` for the
  purely rational formulas (SIP, top-up SIP, lumpsum, inflation
  adjustment, STP) and `ℝ` for the formulas that use `Math.log` /
  fractional `Math.pow` exponents (SWP, CAGR).
* `Math.round` rounds half toward `+∞`, i.e. `⌊x + 1/2⌋`; it is embedded
  as `jsRound` below.
* Division in `ℚ`/`ℝ` is total with `x / 0 = 0`, whereas in JavaScript
  `0 / 0 = NaN`.  The only place the source divides by a quantity that
  can be zero is `calculateSIP` at `annualRate = 0` (the numerator is
  then also `0`); in both semantics the result there differs from the
  value `P * n` that the specification asserts, so every statement made
  below about that point is robust to the convention.
* Durations in years/months are modelled by `ℕ`, matching the
  specification's "positive integer" domain; loop counters follow the
  source's `for` loops.
-/

/-- JavaScript's `Math.round`: round half toward positive infinity. -/
def jsRound (x : ℚ) : ℤ := ⌊x + 1 / 2⌋

/-- Result structure of `calculateSIP` and `calculateLumpsum`:
`{ futureValue, totalInvested, estimatedReturns }`. -/
structure SIPResult where
  futureValue : ℚ
  totalInvested : ℚ
  estimatedReturns : ℚ
  deriving DecidableEq

/--
Embedding of `calculateSIP(P, annualRate, years)` from `docs/assets/js/app.js`:

```js
const r = annualRate / 100 / 12;
const n = years * 12;
const futureValue = P * ((Math.pow(1 + r, n) - 1) / r) * (1 + r);
const totalInvested = P * n;
const estimatedReturns = futureValue - totalInvested;
```

There is no special case for `annualRate = 0` in the source: there the
JavaScript expression is `P * (0/0) * 1 = NaN`, and in this embedding the
total-division convention gives `P * 0 * 1 = 0`; in neither semantics is
it the annuity value `P * n`.
-/
def calculateSIP (P annualRate : ℚ) (years : ℕ) : SIPResult :=
  let r : ℚ := annualRate / 100 / 12
  let n : ℕ := years * 12
  let futureValue : ℚ := P * (((1 + r) ^ n - 1) / r) * (1 + r)
  let totalInvested : ℚ := P * n
  { futureValue := futureValue
    totalInvested := totalInvested
    estimatedReturns := futureValue - totalInvested }

/--
Embedding of `calculateLumpsum(P, annualRate, years)` from `docs/assets/js/app.js`:

```js
const r = annualRate / 100;
const futureValue = P * Math.pow(1 + r, years);
const estimatedReturns = futureValue - P;
return { futureValue, totalInvested: P, estimatedReturns };
```
-/
def calculateLumpsum (P annualRate : ℚ) (years : ℕ) : SIPResult :=
  let r : ℚ := annualRate / 100
  let futureValue : ℚ := P * (1 + r) ^ years
  { futureValue := futureValue
    totalInvested := P
    estimatedReturns := futureValue - P }

/-- Result structure of `calculateInflationAdjusted`. -/
structure InflationResult where
  inflationAdjustedValue : ℚ
  purchasingPowerLoss : ℚ
  deriving DecidableEq

/--
Embedding of `calculateInflationAdjusted(nominalValue, inflationRate, years)` from
`docs/assets/js/app.js` (file `part_001` of the repository):

```js
const inflationAdjustedValue = nominalValue / Math.pow(1 + inflationRate / 100, years);
const purchasingPowerLoss = nominalValue - inflationAdjustedValue;
```
-/
def calculateInflationAdjusted (nominalValue inflationRate : ℚ) (years : ℕ) :
    InflationResult :=
  let inflationAdjustedValue : ℚ := nominalValue / (1 + inflationRate / 100) ^ years
  { inflationAdjustedValue := inflationAdjustedValue
    purchasingPowerLoss := nominalValue - inflationAdjustedValue }

/-- One entry of `calculateTopUpSIP`'s `yearlyBreakdown`:
`{ year, monthlySIP, yearlyInvested, corpusAtEndOfYear }`. -/
structure TopUpEntry where
  year : ℕ
  monthlySIP : ℚ
  yearlyInvested : ℚ
  corpusAtEndOfYear : ℚ
  deriving DecidableEq

/-- Result structure of `calculateTopUpSIP`. -/
structure TopUpResult where
  futureValue : ℚ
  totalInvested : ℚ
  estimatedReturns : ℚ
  yearlyBreakdown : List TopUpEntry
  deriving DecidableEq

/--
The inner month loop of `calculateTopUpSIP`
(`for (let m = 0; m < 12; m++)`): each iteration performs
`corpus = (corpus + monthlySIP) * (1 + r)` and
`yearlyInvested += monthlySIP`.  The state is the pair
`(corpus, yearlyInvested)`.
-/
def sipMonths (monthlySIP r : ℚ) : ℕ → ℚ × ℚ → ℚ × ℚ
  | 0, st => st
  | m + 1, st => sipMonths monthlySIP r m ((st.1 + monthlySIP) * (1 + r), st.2 + monthlySIP)

/--
The outer year loop of `calculateTopUpSIP`
(`for (let y = 1; y <= years; y++)`): `k` counts the remaining years and
`y` is the current year index, starting at `1`.  Each year computes
`monthlySIP = Math.round(P * Math.pow(1 + topUpRate / 100, y - 1))`, runs
the 12-month inner loop, rounds the corpus (`corpus = Math.round(corpus)`)
and appends the year's breakdown entry.
-/
def topUpLoop (P r topUpRate : ℚ) :
    ℕ → ℕ → ℚ → ℚ → List TopUpEntry → ℚ × ℚ × List TopUpEntry
  | 0, _, corpus, totalInvested, acc => (corpus, totalInvested, acc)
  | k + 1, y, corpus, totalInvested, acc =>
      let monthlySIP : ℚ := (jsRound (P * (1 + topUpRate / 100) ^ (y - 1)) : ℤ)
      let st := sipMonths monthlySIP r 12 (corpus, 0)
      let corpus2 : ℚ := (jsRound st.1 : ℤ)
      topUpLoop P r topUpRate k (y + 1) corpus2 (totalInvested + st.2)
        (acc ++ [⟨y, monthlySIP, st.2, corpus2⟩])

/--
Embedding of `calculateTopUpSIP(P, annualRate, years, topUpRate)` from
`docs/assets/js/app.js`: year-by-year simulation with annual top-up of
the monthly contribution; the corpus is rounded once per year.
-/
def calculateTopUpSIP (P annualRate : ℚ) (years : ℕ) (topUpRate : ℚ) : TopUpResult :=
  let r : ℚ := annualRate / 100 / 12
  let st := topUpLoop P r topUpRate years 1 0 0 []
  { futureValue := st.1
    totalInvested := st.2.1
    estimatedReturns := st.1 - st.2.1
    yearlyBreakdown := st.2.2 }

/-- One entry of `calculateSTP`'s `breakdown`:
`{ month, debtCorpus, equityCorpus, totalCorpus }`, all three monetary
fields stored with `Math.round` applied. -/
structure STPEntry where
  month : ℕ
  debtCorpus : ℚ
  equityCorpus : ℚ
  totalCorpus : ℚ
  deriving DecidableEq

/-- Result structure of `calculateSTP`. -/
structure STPResult where
  debtCorpus : ℚ
  equityCorpus : ℚ
  totalCorpus : ℚ
  totalTransferred : ℚ
  breakdown : List STPEntry
  directEquityValue : ℚ
  debtOnlyValue : ℚ
  deriving DecidableEq

/--
The month loop of `calculateSTP` (`for (let m = 1; m <= months; m++)`):

```js
debtCorpus = debtCorpus * (1 + dr);
const transfer = Math.min(monthlyTransfer, debtCorpus);
debtCorpus -= transfer;
totalTransferred += transfer;
equityCorpus = (equityCorpus + transfer) * (1 + er);
breakdown.push({ month: m, debtCorpus: Math.round(debtCorpus),
  equityCorpus: Math.round(equityCorpus),
  totalCorpus: Math.round(debtCorpus + equityCorpus) });
```

`k` counts the remaining months and `m` is the current month index.
-/
def stpLoop (monthlyTransfer dr er : ℚ) :
    ℕ → ℕ → ℚ → ℚ → ℚ → List STPEntry → ℚ × ℚ × ℚ × List STPEntry
  | 0, _, debtCorpus, equityCorpus, totalTransferred, acc =>
      (debtCorpus, equityCorpus, totalTransferred, acc)
  | k + 1, m, debtCorpus, equityCorpus, totalTransferred, acc =>
      let grown := debtCorpus * (1 + dr)
      let transfer := min monthlyTransfer grown
      let debtCorpus2 := grown - transfer
      let equityCorpus2 := (equityCorpus + transfer) * (1 + er)
      stpLoop monthlyTransfer dr er k (m + 1) debtCorpus2 equityCorpus2
        (totalTransferred + transfer)
        (acc ++ [⟨m, (jsRound debtCorpus2 : ℤ), (jsRound equityCorpus2 : ℤ),
          (jsRound (debtCorpus2 + equityCorpus2) : ℤ)⟩])

/--
Embedding of `calculateSTP(lumpSum, monthlyTransfer, debtRate, equityRate, months)`
from `docs/assets/js/app.js` (file `part_001`): monthly debt-to-equity
transfer simulation.  The returned `debtCorpus`, `equityCorpus`,
`totalCorpus` and `totalTransferred` are the unrounded running values;
only the per-month `breakdown` entries are rounded.
-/
def calculateSTP (lumpSum monthlyTransfer debtRate equityRate : ℚ) (months : ℕ) :
    STPResult :=
  let dr : ℚ := debtRate / 100 / 12
  let er : ℚ := equityRate / 100 / 12
  let st := stpLoop monthlyTransfer dr er months 1 lumpSum 0 0 []
  { debtCorpus := st.1
    equityCorpus := st.2.1
    totalCorpus := st.1 + st.2.1
    totalTransferred := st.2.2.1
    breakdown := st.2.2.2
    directEquityValue := lumpSum * (1 + equityRate / 100 / 12) ^ months
    debtOnlyValue := lumpSum * (1 + debtRate / 100 / 12) ^ months }

/-- Result structure of `calculateSWP`.  The duration fields are the
integers produced by `Math.ceil`, `Math.floor` and `%`. -/
structure SWPResult where
  months : ℤ
  years : ℤ
  remainingMonths : ℤ
  totalWithdrawn : ℝ
  isIndefinite : Bool

/--
Embedding of `calculateSWP(corpus, monthlyWithdrawal, annualRate)` from
`docs/assets/js/app.js` (file `part_001`):

```js
const r = annualRate / 100 / 12;
if (monthlyWithdrawal <= corpus * r) {
  return { months: 0, years: 0, remainingMonths: 0, totalWithdrawn: 0, isIndefinite: true };
}
const n = r === 0
  ? corpus / monthlyWithdrawal
  : -Math.log(1 - (corpus * r) / monthlyWithdrawal) / Math.log(1 + r);
const months = Math.ceil(n);
const years = Math.floor(months / 12);
const remainingMonths = months % 12;
const totalWithdrawn = monthlyWithdrawal * months;
```

`Math.floor(months / 12)` is embedded literally as `⌊(months : ℝ) / 12⌋`.
JavaScript's remainder `months % 12` agrees with `Int.emod` for the
non-negative `months` arising on the valid input domain.
-/
noncomputable def calculateSWP (corpus monthlyWithdrawal annualRate : ℝ) : SWPResult :=
  let r : ℝ := annualRate / 100 / 12
  if monthlyWithdrawal ≤ corpus * r then
    { months := 0, years := 0, remainingMonths := 0, totalWithdrawn := 0,
      isIndefinite := true }
  else
    let n : ℝ :=
      if r = 0 then corpus / monthlyWithdrawal
      else -Real.log (1 - corpus * r / monthlyWithdrawal) / Real.log (1 + r)
    let months : ℤ := ⌈n⌉
    { months := months
      years := ⌊(months : ℝ) / 12⌋
      remainingMonths := months % 12
      totalWithdrawn := monthlyWithdrawal * (months : ℝ)
      isIndefinite := false }

/--
Embedding of `calculateCAGR(beginValue, endValue, years)` from
`docs/assets/js/app.js`:

```js
return (Math.pow(endValue / beginValue, 1 / years) - 1) * 100;
```

The fractional exponent is embedded with `Real.rpow`.
-/
noncomputable def calculateCAGR (beginValue endValue years : ℝ) : ℝ :=
  ((endValue / beginValue) ^ (1 / years) - 1) * 100

/-- Helper for the Indian digit grouping: the input is a reversed digit
list; a comma is inserted after every two digits while more digits
remain. -/
def groupTwoRev : List Char → List Char
  | a :: b :: c :: rest => a :: b :: ',' :: groupTwoRev (c :: rest)
  | l => l

/-- Indian grouping on a reversed digit list: the first (rightmost) three
digits form one group, the remaining digits are grouped in twos. -/
def indianDigitsRev : List Char → List Char
  | a :: b :: c :: d :: rest => a :: b :: c :: ',' :: groupTwoRev (d :: rest)
  | l => l

/--
Modelled from the spec: `Number.prototype.toLocaleString("en-IN")` is
host-runtime behaviour, not repository code.  Per the spec, currency
formatting "groups digits using the Indian numbering convention — 2-digit
groups after the first 3 digits from the right, e.g., 1200000 →
\"12,00,000\"".
-/
def indianNumString (n : ℕ) : String :=
  String.mk (indianDigitsRev (Nat.repr n).toList.reverse).reverse

/--
Embedding of `formatINR(value)` from `docs/assets/js/app.js`:
`"Rs. " + Math.round(value).toLocaleString("en-IN")`, with the locale
grouping modelled by `indianNumString`.
-/
def formatINR (value : ℚ) : String :=
  "Rs. " ++
    (if jsRound value < 0 then "-" ++ indianNumString (jsRound value).natAbs
     else indianNumString (jsRound value).natAbs)

/--
Embedding of `formatPercent(value)` from `docs/assets/js/app.js`: `value + "%"`,
JavaScript's number-to-string coercion followed by the `%` suffix,
modelled on integer-valued inputs.
-/
def formatPercent (value : ℤ) : String := toString value ++ "%"

/-! ## Helper lemmas -/

theorem jsRound_nonneg {x : ℚ} (hx : 0 ≤ x) : 0 ≤ jsRound x :=
  Int.floor_nonneg.mpr (by linarith)

theorem jsRound_eq_iff {x : ℚ} {n : ℤ} :
    jsRound x = n ↔ (n : ℚ) ≤ x + 1 / 2 ∧ x + 1 / 2 < n + 1 :=
  Int.floor_eq_iff

theorem jsRound_intCast (n : ℤ) : jsRound (n : ℚ) = n := by
  refine jsRound_eq_iff.mpr ⟨by norm_num, by norm_num⟩

/-! ## Claim C1 -/

/--
Claim C1, counterexample to the zero-rate conjunct: the claim asserts
that at `annualRate = 0` `calculateSIP` returns `futureValue = P * n`.
The source has no zero-rate branch: at `annualRate = 0` the expression
divides `0` by `0` (`NaN` in JavaScript, `0` under this embedding's
total-division convention), and in neither semantics is the result the
claimed `P * n = 1000 * 12 = 12000`.
-/
theorem claim_C1_counterexample :
    ¬ (calculateSIP 1000 0 1).futureValue = 1000 * 12 := by
  norm_num [calculateSIP]

/--
Claim C1 (amended): for every monthly contribution `P`, duration
`years` and `annualRate ≠ 0`, `calculateSIP` returns
`totalInvested = P * n` with `n = years * 12` and
`futureValue = P * ((1+r)^n - 1)/r * (1+r)` with `r = annualRate/100/12`.
There is no special zero-rate branch returning `P * n`.
-/
theorem claim_C1 (P annualRate : ℚ) (years : ℕ) (_h : annualRate ≠ 0) :
    (calculateSIP P annualRate years).totalInvested = P * ((years * 12 : ℕ) : ℚ) ∧
      (calculateSIP P annualRate years).futureValue =
        P * (((1 + annualRate / 100 / 12) ^ (years * 12) - 1) /
          (annualRate / 100 / 12)) * (1 + annualRate / 100 / 12) :=
  ⟨rfl, rfl⟩

/-- Witness for claim C1 at `P = 5000`, `annualRate = 12`, `years = 10`. -/
theorem claim_C1_witness :
    (12 : ℚ) ≠ 0 ∧
      ((calculateSIP 5000 12 10).totalInvested = 5000 * (((10 * 12 : ℕ) : ℚ)) ∧
        (calculateSIP 5000 12 10).futureValue =
          5000 * (((1 + 12 / 100 / 12) ^ (10 * 12) - 1) / (12 / 100 / 12)) *
            (1 + 12 / 100 / 12)) :=
  ⟨by norm_num, claim_C1 5000 12 10 (by norm_num)⟩

/-! ## Claim C6 -/

/--
Claim C6: for every formula whose result carries both fields
(`calculateSIP`, `calculateTopUpSIP`, `calculateLumpsum`) and every
input, the returned `estimatedReturns` equals
`futureValue - totalInvested` (exactly, in this exact-arithmetic
embedding).
-/
theorem claim_C6 :
    (∀ (P annualRate : ℚ) (years : ℕ),
        (calculateSIP P annualRate years).estimatedReturns =
          (calculateSIP P annualRate years).futureValue -
            (calculateSIP P annualRate years).totalInvested) ∧
      (∀ (P annualRate : ℚ) (years : ℕ) (topUpRate : ℚ),
        (calculateTopUpSIP P annualRate years topUpRate).estimatedReturns =
          (calculateTopUpSIP P annualRate years topUpRate).futureValue -
            (calculateTopUpSIP P annualRate years topUpRate).totalInvested) ∧
      (∀ (P annualRate : ℚ) (years : ℕ),
        (calculateLumpsum P annualRate years).estimatedReturns =
          (calculateLumpsum P annualRate years).futureValue -
            (calculateLumpsum P annualRate years).totalInvested) :=
  ⟨fun _ _ _ => rfl, fun _ _ _ _ => rfl, fun _ _ _ => rfl⟩

/-! ## Claim C9 -/

/--
Claim C9: currency formatting groups digits by the Indian numbering
convention (2-digit groups after the first 3 digits from the right):
`formatINR 100000 = "Rs. 1,00,000"`, `formatINR 0` renders the digits
`"0"`, `formatINR 1200000 = "Rs. 12,00,000"`, and `formatPercent`
appends a `%` suffix to the numeric value.
-/
theorem claim_C9 :
    formatINR 100000 = "Rs. 1,00,000" ∧
      formatINR 0 = "Rs. 0" ∧
      formatINR 1200000 = "Rs. 12,00,000" ∧
      ∀ v : ℤ, formatPercent v = toString v ++ "%" := by
  have h1 : jsRound (100000 : ℚ) = 100000 := by
    simpa using jsRound_intCast 100000
  have h0 : jsRound (0 : ℚ) = 0 := by
    simpa using jsRound_intCast 0
  have h2 : jsRound (1200000 : ℚ) = 1200000 := by
    simpa using jsRound_intCast 1200000
  refine ⟨?_, ?_, ?_, fun _ => rfl⟩ <;>
    simp [formatINR, h0, h1, h2] <;> rfl

/-! ## Loop lemmas for the STP and top-up SIP simulations -/

/-- One unfolding of the STP month loop: the debt corpus first compounds
(`d * (1 + dr)`), the transfer is `min monthlyTransfer` of the grown
corpus, it is subtracted from the source and added to the destination,
which then compounds by `(1 + er)`; the rounded snapshot is appended. -/
theorem stpLoop_succ (T dr er : ℚ) (k m : ℕ) (d e tt : ℚ) (acc : List STPEntry) :
    stpLoop T dr er (k + 1) m d e tt acc =
      stpLoop T dr er k (m + 1)
        (d * (1 + dr) - min T (d * (1 + dr)))
        ((e + min T (d * (1 + dr))) * (1 + er))
        (tt + min T (d * (1 + dr)))
        (acc ++ [⟨m, ((jsRound (d * (1 + dr) - min T (d * (1 + dr))) : ℤ) : ℚ),
          ((jsRound ((e + min T (d * (1 + dr))) * (1 + er)) : ℤ) : ℚ),
          ((jsRound (d * (1 + dr) - min T (d * (1 + dr)) +
            (e + min T (d * (1 + dr))) * (1 + er)) : ℤ) : ℚ)⟩]) := rfl

/-- After every iteration of the STP loop the source (debt) corpus is
non-negative: the transfer is capped at the grown corpus. -/
theorem stpLoop_debt_nonneg (T dr er : ℚ) (k : ℕ) :
    ∀ (m : ℕ) (d e tt : ℚ) (acc : List STPEntry), 0 ≤ d →
      (∀ en ∈ acc, 0 ≤ en.debtCorpus) →
      0 ≤ (stpLoop T dr er k m d e tt acc).1 ∧
        ∀ en ∈ (stpLoop T dr er k m d e tt acc).2.2.2, 0 ≤ en.debtCorpus := by
  induction k with
  | zero =>
    intro m d e tt acc hd hacc
    exact ⟨hd, hacc⟩
  | succ k ih =>
    intro m d e tt acc hd hacc
    rw [stpLoop_succ]
    refine ih (m + 1) _ _ _ _ (sub_nonneg.mpr (min_le_right _ _)) ?_
    intro en hen
    rcases List.mem_append.mp hen with h | h
    · exact hacc en h
    · rcases List.mem_singleton.mp h with rfl
      have hnn : (0 : ℤ) ≤ jsRound (d * (1 + dr) - min T (d * (1 + dr))) :=
        jsRound_nonneg (sub_nonneg.mpr (min_le_right _ _))
      show (0 : ℚ) ≤ ((jsRound (d * (1 + dr) - min T (d * (1 + dr))) : ℤ) : ℚ)
      exact_mod_cast hnn

/-- The last breakdown entry written by the STP loop snapshots the final
state: its `totalCorpus` field is the rounded final `debt + equity`. -/
theorem stpLoop_getLast (T dr er : ℚ) (k : ℕ) :
    ∀ (m : ℕ) (d e tt : ℚ) (acc : List STPEntry), 1 ≤ k →
      (stpLoop T dr er k m d e tt acc).2.2.2.getLast?.map STPEntry.totalCorpus =
        some ((jsRound ((stpLoop T dr er k m d e tt acc).1 +
          (stpLoop T dr er k m d e tt acc).2.1) : ℤ) : ℚ) := by
  induction k with
  | zero => omega
  | succ k ih =>
    intro m d e tt acc _
    rw [stpLoop_succ]
    rcases Nat.eq_zero_or_pos k with hk | hk
    · subst hk
      simp [stpLoop, List.getLast?_concat]
    · exact ih (m + 1) _ _ _ _ hk

/-- One unfolding of the top-up SIP year loop. -/
theorem topUpLoop_succ (P r tu : ℚ) (k y : ℕ) (c i : ℚ) (acc : List TopUpEntry) :
    topUpLoop P r tu (k + 1) y c i acc =
      topUpLoop P r tu k (y + 1)
        ((jsRound (sipMonths ((jsRound (P * (1 + tu / 100) ^ (y - 1)) : ℤ) : ℚ)
          r 12 (c, 0)).1 : ℤ) : ℚ)
        (i + (sipMonths ((jsRound (P * (1 + tu / 100) ^ (y - 1)) : ℤ) : ℚ)
          r 12 (c, 0)).2)
        (acc ++ [⟨y, ((jsRound (P * (1 + tu / 100) ^ (y - 1)) : ℤ) : ℚ),
          (sipMonths ((jsRound (P * (1 + tu / 100) ^ (y - 1)) : ℤ) : ℚ)
            r 12 (c, 0)).2,
          ((jsRound (sipMonths ((jsRound (P * (1 + tu / 100) ^ (y - 1)) : ℤ) : ℚ)
            r 12 (c, 0)).1 : ℤ) : ℚ)⟩]) := rfl

/-- The last breakdown entry written by the top-up SIP year loop carries
exactly the final (rounded) corpus. -/
theorem topUpLoop_getLast (P r tu : ℚ) (k : ℕ) :
    ∀ (y : ℕ) (c i : ℚ) (acc : List TopUpEntry), 1 ≤ k →
      (topUpLoop P r tu k y c i acc).2.2.getLast?.map TopUpEntry.corpusAtEndOfYear =
        some (topUpLoop P r tu k y c i acc).1 := by
  induction k with
  | zero => omega
  | succ k ih =>
    intro y c i acc _
    rw [topUpLoop_succ]
    rcases Nat.eq_zero_or_pos k with hk | hk
    · subst hk
      simp [topUpLoop, List.getLast?_concat]
    · exact ih (y + 1) _ _ _ hk

/-! ## Claim C2 -/

/--
Claim C2, counterexample to the STP conjunct: the claim asserts that
`calculateSTP`'s last breakdown entry's `totalCorpus` equals the
returned final `totalCorpus`.  The breakdown entries are rounded
(`Math.round`) while the returned total is unrounded: at
`calculateSTP(100, 0, 6, 0, 1)` the final total is `100.5` but the last
(only) entry stores `101`.
-/
theorem claim_C2_counterexample :
    (calculateSTP 100 0 6 0 1).breakdown.getLast?.map STPEntry.totalCorpus ≠
      some (calculateSTP 100 0 6 0 1).totalCorpus := by
  have h : jsRound (201 / 2 : ℚ) = 101 := jsRound_eq_iff.mpr (by norm_num)
  norm_num [calculateSTP, stpLoop, min_def, h]

/--
Claim C2 (amended): in `calculateTopUpSIP` the last `yearlyBreakdown`
entry's `corpusAtEndOfYear` equals the returned `futureValue` exactly;
in `calculateSTP` the returned final `totalCorpus` is the unrounded
`debtCorpus + equityCorpus`, and the last breakdown entry's
`totalCorpus` equals that final total *rounded to the nearest integer*
(`Math.round`), it is not the unrounded total itself.
-/
theorem claim_C2 :
    (∀ (P annualRate : ℚ) (years : ℕ) (topUpRate : ℚ), 1 ≤ years →
      (calculateTopUpSIP P annualRate years topUpRate).yearlyBreakdown.getLast?.map
          TopUpEntry.corpusAtEndOfYear =
        some (calculateTopUpSIP P annualRate years topUpRate).futureValue) ∧
      (∀ (lumpSum T dR eR : ℚ) (months : ℕ),
        (calculateSTP lumpSum T dR eR months).totalCorpus =
          (calculateSTP lumpSum T dR eR months).debtCorpus +
            (calculateSTP lumpSum T dR eR months).equityCorpus) ∧
      ∀ (lumpSum T dR eR : ℚ) (months : ℕ), 1 ≤ months →
        (calculateSTP lumpSum T dR eR months).breakdown.getLast?.map
            STPEntry.totalCorpus =
          some ((jsRound (calculateSTP lumpSum T dR eR months).totalCorpus : ℤ) : ℚ) := by
  refine ⟨?_, fun _ _ _ _ _ => rfl, ?_⟩
  · intro P annualRate years topUpRate hy
    exact topUpLoop_getLast P (annualRate / 100 / 12) topUpRate years 1 0 0 [] hy
  · intro lumpSum T dR eR months hm
    exact stpLoop_getLast T (dR / 100 / 12) (eR / 100 / 12) months 1 lumpSum 0 0 [] hm

/-- Witness for claim C2 at concrete inputs. -/
theorem claim_C2_witness :
    ((1 : ℕ) ≤ 2 ∧
      (calculateTopUpSIP 5000 12 2 10).yearlyBreakdown.getLast?.map
          TopUpEntry.corpusAtEndOfYear =
        some (calculateTopUpSIP 5000 12 2 10).futureValue) ∧
      (calculateSTP 500000 25000 7 14 3).totalCorpus =
        (calculateSTP 500000 25000 7 14 3).debtCorpus +
          (calculateSTP 500000 25000 7 14 3).equityCorpus ∧
      (calculateSTP 500000 25000 7 14 3).breakdown.getLast?.map STPEntry.totalCorpus =
        some ((jsRound (calculateSTP 500000 25000 7 14 3).totalCorpus : ℤ) : ℚ) :=
  ⟨⟨by norm_num, claim_C2.1 5000 12 2 10 (by norm_num)⟩,
    claim_C2.2.1 500000 25000 7 14 3,
    claim_C2.2.2 500000 25000 7 14 3 (by norm_num)⟩

/-! ## Claim C7 -/

/--
Claim C7: each STP month first compounds the source (debt) corpus by
`(1 + dr)`, transfers `min(monthlyTransfer, grown corpus)` out of the
source into the destination, which then compounds by `(1 + er)` (first
conjunct, the loop-step identity); consequently, for a non-negative
lump sum, the debt corpus is non-negative after every month — in every
breakdown entry and in the final result (second conjunct): the excess
transfer is capped, never rejected, and never drives the balance
negative.
-/
theorem claim_C7 :
    (∀ (T dr er : ℚ) (k m : ℕ) (d e tt : ℚ) (acc : List STPEntry),
      stpLoop T dr er (k + 1) m d e tt acc =
        stpLoop T dr er k (m + 1)
          (d * (1 + dr) - min T (d * (1 + dr)))
          ((e + min T (d * (1 + dr))) * (1 + er))
          (tt + min T (d * (1 + dr)))
          (acc ++ [⟨m, ((jsRound (d * (1 + dr) - min T (d * (1 + dr))) : ℤ) : ℚ),
            ((jsRound ((e + min T (d * (1 + dr))) * (1 + er)) : ℤ) : ℚ),
            ((jsRound (d * (1 + dr) - min T (d * (1 + dr)) +
              (e + min T (d * (1 + dr))) * (1 + er)) : ℤ) : ℚ)⟩])) ∧
      ∀ (lumpSum T dR eR : ℚ) (months : ℕ), 0 ≤ lumpSum →
        (∀ en ∈ (calculateSTP lumpSum T dR eR months).breakdown, 0 ≤ en.debtCorpus) ∧
          0 ≤ (calculateSTP lumpSum T dR eR months).debtCorpus := by
  refine ⟨stpLoop_succ, ?_⟩
  intro lumpSum T dR eR months hL
  have h := stpLoop_debt_nonneg T (dR / 100 / 12) (eR / 100 / 12) months 1
    lumpSum 0 0 [] hL (by simp)
  exact ⟨h.2, h.1⟩

/-- Witness for claim C7 at a concrete STP run. -/
theorem claim_C7_witness :
    (0 : ℚ) ≤ 100000 ∧
      (∀ en ∈ (calculateSTP 100000 5000 6 12 2).breakdown, 0 ≤ en.debtCorpus) ∧
      0 ≤ (calculateSTP 100000 5000 6 12 2).debtCorpus :=
  ⟨by norm_num, (claim_C7.2 100000 5000 6 12 2 (by norm_num)).1,
    (claim_C7.2 100000 5000 6 12 2 (by norm_num)).2⟩

/-! ## Claim C8 -/

/-- Geometric-series form of the SIP future value: for a non-zero
annual rate, `futureValue = P * (∑ i < years*12, (1+r)^i) * (1+r)` with
`r = annualRate/100/12`. -/
theorem calculateSIP_futureValue_eq (P annualRate : ℚ) (years : ℕ)
    (h : annualRate ≠ 0) :
    (calculateSIP P annualRate years).futureValue =
      P * (∑ i ∈ Finset.range (years * 12), (1 + annualRate / 100 / 12) ^ i) *
        (1 + annualRate / 100 / 12) := by
  have hr : annualRate / 100 / 12 ≠ 0 := by
    rw [div_div]
    exact div_ne_zero h (by norm_num)
  have hne : (1 + annualRate / 100 / 12) ≠ 1 := by
    intro hh
    exact hr (by linarith)
  show P * (((1 + annualRate / 100 / 12) ^ (years * 12) - 1) /
      (annualRate / 100 / 12)) * (1 + annualRate / 100 / 12) = _
  rw [geom_sum_eq hne]
  ring_nf

/-- The annuity factor `∑ i < n, (1+r)^i` is positive for `r > -1`. -/
theorem sipSum_pos (r : ℚ) (hr : -1 < r) (n : ℕ) (hn : 0 < n) :
    0 < ∑ i ∈ Finset.range n, (1 + r) ^ i :=
  Finset.sum_pos (fun i _ => pow_pos (by linarith) i)
    (Finset.nonempty_range_iff.mpr (by omega))

/-- The annuity factor is strictly increasing in the monthly rate. -/
theorem sipSum_strictMono_rate (r1 r2 : ℚ) (h0 : 0 ≤ r1) (h12 : r1 < r2)
    (n : ℕ) (hn : 2 ≤ n) :
    (∑ i ∈ Finset.range n, (1 + r1) ^ i) < ∑ i ∈ Finset.range n, (1 + r2) ^ i := by
  refine Finset.sum_lt_sum (fun i _ => pow_le_pow_left₀ (by linarith) (by linarith) i) ?_
  exact ⟨1, Finset.mem_range.mpr (by omega), by simpa using h12⟩

/-- The annuity factor is strictly increasing in the number of months. -/
theorem sipSum_strictMono_months (r : ℚ) (hr : -1 < r) (n1 n2 : ℕ) (h : n1 < n2) :
    (∑ i ∈ Finset.range n1, (1 + r) ^ i) < ∑ i ∈ Finset.range n2, (1 + r) ^ i := by
  refine Finset.sum_lt_sum_of_subset (Finset.range_subset.mpr h.le)
    (Finset.mem_range.mpr h) (by simp) (pow_pos (by linarith) n1) ?_
  intro j _ _
  exact (pow_pos (by linarith) j).le

/--
Claim C8, counterexample: the claim's monotonicity is asserted for
`rate ≥ 0`, but at `annualRate = 0` `calculateSIP`'s `futureValue` is
degenerate (division by zero: `NaN` in JavaScript, `0` in this
embedding), so increasing the contribution from `1000` to `2000` does
*not* increase it.
-/
theorem claim_C8_counterexample :
    ¬ (calculateSIP 1000 0 1).futureValue < (calculateSIP 2000 0 1).futureValue := by
  norm_num [calculateSIP]

/--
Claim C8 (amended): the SIP monotonicities hold for *positive* rates
(at rate 0 the SIP future value is degenerate by division by zero);
lumpsum future value is strictly increasing in principal (rate ≥ 0), in
rate (years ≥ 1) and in duration (rate > 0, since at rate 0 it is
constant in duration); the inflation-adjusted value is strictly
decreasing in the inflation rate (years ≥ 1) and in duration
(inflation > 0, since at inflation 0 it is constant in duration).
-/
theorem claim_C8 :
    (∀ (annualRate : ℚ) (years : ℕ) (P P' : ℚ), 0 < annualRate → 1 ≤ years →
      P < P' →
      (calculateSIP P annualRate years).futureValue <
        (calculateSIP P' annualRate years).futureValue) ∧
    (∀ (P : ℚ) (years : ℕ) (r1 r2 : ℚ), 0 < P → 1 ≤ years → 0 < r1 → r1 < r2 →
      (calculateSIP P r1 years).futureValue <
        (calculateSIP P r2 years).futureValue) ∧
    (∀ (P annualRate : ℚ) (y1 y2 : ℕ), 0 < P → 0 < annualRate → y1 < y2 →
      (calculateSIP P annualRate y1).futureValue <
        (calculateSIP P annualRate y2).futureValue) ∧
    (∀ (annualRate : ℚ) (years : ℕ) (P P' : ℚ), 0 ≤ annualRate → P < P' →
      (calculateLumpsum P annualRate years).futureValue <
        (calculateLumpsum P' annualRate years).futureValue) ∧
    (∀ (P : ℚ) (years : ℕ) (r1 r2 : ℚ), 0 < P → 1 ≤ years → 0 ≤ r1 → r1 < r2 →
      (calculateLumpsum P r1 years).futureValue <
        (calculateLumpsum P r2 years).futureValue) ∧
    (∀ (P annualRate : ℚ) (y1 y2 : ℕ), 0 < P → 0 < annualRate → y1 < y2 →
      (calculateLumpsum P annualRate y1).futureValue <
        (calculateLumpsum P annualRate y2).futureValue) ∧
    (∀ (N : ℚ) (years : ℕ) (i1 i2 : ℚ), 0 < N → 1 ≤ years → 0 ≤ i1 → i1 < i2 →
      (calculateInflationAdjusted N i2 years).inflationAdjustedValue <
        (calculateInflationAdjusted N i1 years).inflationAdjustedValue) ∧
    (∀ (N inflationRate : ℚ) (y1 y2 : ℕ), 0 < N → 0 < inflationRate → y1 < y2 →
      (calculateInflationAdjusted N inflationRate y2).inflationAdjustedValue <
        (calculateInflationAdjusted N inflationRate y1).inflationAdjustedValue) := by
  have hb : ∀ x : ℚ, 0 ≤ x → (0 : ℚ) < 1 + x / 100 := by
    intro x hx
    have : (0 : ℚ) ≤ x / 100 := by positivity
    linarith
  refine ⟨?_, ?_, ?_, ?_, ?_, ?_, ?_, ?_⟩
  · -- SIP strictly increasing in the contribution
    intro annualRate years P P' hrate hy hPP
    have hr : (0 : ℚ) < annualRate / 100 / 12 := by positivity
    rw [calculateSIP_futureValue_eq _ _ _ hrate.ne',
      calculateSIP_futureValue_eq _ _ _ hrate.ne', mul_assoc, mul_assoc]
    exact mul_lt_mul_of_pos_right hPP
      (mul_pos (sipSum_pos _ (by linarith) _ (by omega)) (by linarith))
  · -- SIP strictly increasing in the rate
    intro P years r1 r2 hP hy h1 h12
    have hm1 : (0 : ℚ) < r1 / 100 / 12 := by positivity
    have hm12 : r1 / 100 / 12 < r2 / 100 / 12 := by linarith
    have hS := sipSum_strictMono_rate (r1 / 100 / 12) (r2 / 100 / 12)
      hm1.le hm12 (years * 12) (by omega)
    have hS1 := sipSum_pos (r1 / 100 / 12) (by linarith) (years * 12) (by omega)
    have hS2 := sipSum_pos (r2 / 100 / 12) (by linarith) (years * 12) (by omega)
    rw [calculateSIP_futureValue_eq _ _ _ (by linarith),
      calculateSIP_futureValue_eq _ _ _ (by linarith)]
    calc P * (∑ i ∈ Finset.range (years * 12), (1 + r1 / 100 / 12) ^ i) *
          (1 + r1 / 100 / 12)
        < P * (∑ i ∈ Finset.range (years * 12), (1 + r2 / 100 / 12) ^ i) *
          (1 + r1 / 100 / 12) :=
          mul_lt_mul_of_pos_right (mul_lt_mul_of_pos_left hS hP) (by linarith)
      _ < P * (∑ i ∈ Finset.range (years * 12), (1 + r2 / 100 / 12) ^ i) *
          (1 + r2 / 100 / 12) :=
          mul_lt_mul_of_pos_left (by linarith) (mul_pos hP hS2)
  · -- SIP strictly increasing in the duration
    intro P annualRate y1 y2 hP hrate hy
    have hr : (0 : ℚ) < annualRate / 100 / 12 := by positivity
    rw [calculateSIP_futureValue_eq _ _ _ hrate.ne',
      calculateSIP_futureValue_eq _ _ _ hrate.ne']
    exact mul_lt_mul_of_pos_right
      (mul_lt_mul_of_pos_left
        (sipSum_strictMono_months _ (by linarith) _ _ (by omega)) hP)
      (by linarith)
  · -- Lumpsum strictly increasing in the principal
    intro annualRate years P P' hrate hPP
    exact mul_lt_mul_of_pos_right hPP (pow_pos (hb _ hrate) years)
  · -- Lumpsum strictly increasing in the rate
    intro P years r1 r2 hP hy h1 h12
    have hbb : 1 + r1 / 100 < 1 + r2 / 100 := by linarith
    exact mul_lt_mul_of_pos_left
      (pow_lt_pow_left₀ hbb (hb _ h1).le (by omega)) hP
  · -- Lumpsum strictly increasing in the duration
    intro P annualRate y1 y2 hP hrate hy
    have h1 : (1 : ℚ) < 1 + annualRate / 100 := by
      have : (0 : ℚ) < annualRate / 100 := by positivity
      linarith
    exact mul_lt_mul_of_pos_left (pow_lt_pow_right₀ h1 hy) hP
  · -- Inflation-adjusted value strictly decreasing in the inflation rate
    intro N years i1 i2 hN hy h1 h12
    have hbb : 1 + i1 / 100 < 1 + i2 / 100 := by linarith
    exact (div_lt_div_iff_of_pos_left hN (pow_pos (hb _ (by linarith)) years)
        (pow_pos (hb _ h1) years)).mpr
      (pow_lt_pow_left₀ hbb (hb _ h1).le (by omega))
  · -- Inflation-adjusted value strictly decreasing in the duration
    intro N inflationRate y1 y2 hN hinf hy
    have h1 : (1 : ℚ) < 1 + inflationRate / 100 := by
      have : (0 : ℚ) < inflationRate / 100 := by positivity
      linarith
    exact (div_lt_div_iff_of_pos_left hN (pow_pos (by linarith) y2)
        (pow_pos (by linarith) y1)).mpr (pow_lt_pow_right₀ h1 hy)

/-- Witness for claim C8: every monotonicity conjunct exercised at a
concrete input. -/
theorem claim_C8_witness :
    (0 : ℚ) < 12 ∧
      (calculateSIP 1000 12 1).futureValue < (calculateSIP 2000 12 1).futureValue ∧
      (calculateSIP 1000 8 1).futureValue < (calculateSIP 1000 15 1).futureValue ∧
      (calculateSIP 1000 12 1).futureValue < (calculateSIP 1000 12 2).futureValue ∧
      (calculateLumpsum 1000 12 1).futureValue <
        (calculateLumpsum 2000 12 1).futureValue ∧
      (calculateLumpsum 1000 8 1).futureValue <
        (calculateLumpsum 1000 15 1).futureValue ∧
      (calculateLumpsum 1000 12 1).futureValue <
        (calculateLumpsum 1000 12 2).futureValue ∧
      (calculateInflationAdjusted 1000 10 1).inflationAdjustedValue <
        (calculateInflationAdjusted 1000 4 1).inflationAdjustedValue ∧
      (calculateInflationAdjusted 1000 6 2).inflationAdjustedValue <
        (calculateInflationAdjusted 1000 6 1).inflationAdjustedValue :=
  ⟨by norm_num,
    claim_C8.1 12 1 1000 2000 (by norm_num) (by norm_num) (by norm_num),
    claim_C8.2.1 1000 1 8 15 (by norm_num) (by norm_num) (by norm_num) (by norm_num),
    claim_C8.2.2.1 1000 12 1 2 (by norm_num) (by norm_num) (by norm_num),
    claim_C8.2.2.2.1 12 1 1000 2000 (by norm_num) (by norm_num),
    claim_C8.2.2.2.2.1 1000 1 8 15 (by norm_num) (by norm_num) (by norm_num)
      (by norm_num),
    claim_C8.2.2.2.2.2.1 1000 12 1 2 (by norm_num) (by norm_num) (by norm_num),
    claim_C8.2.2.2.2.2.2.1 1000 1 4 10 (by norm_num) (by norm_num) (by norm_num)
      (by norm_num),
    claim_C8.2.2.2.2.2.2.2 1000 6 1 2 (by norm_num) (by norm_num) (by norm_num)⟩

/-! ## SWP helper lemmas -/

/-- `Math.floor(m / 12)` on an integer `m` is integer (floor) division. -/
theorem floor_intCast_div_twelve (m : ℤ) : ⌊(m : ℝ) / 12⌋ = m / 12 := by
  have h : ((((m : ℚ)) / ((12 : ℕ) : ℚ) : ℚ) : ℝ) = (m : ℝ) / 12 := by
    push_cast
    ring
  rw [← h, Rat.floor_cast]
  exact_mod_cast Rat.floor_intCast_div_natCast m 12

/-! ## Claim C3 -/

/--
Claim C3: for corpus `C > 0`, withdrawal `W > 0` and rate `≥ 0` with
`W > C*r` (`r = rate/1200`), `calculateSWP` returns
`months = ⌈n⌉` with `n = -ln(1 - C*r/W)/ln(1+r)` for `r ≠ 0` and
`n = C/W` for `r = 0`, decomposes `months` as
`years = months / 12` (floor) and `remainingMonths = months % 12`, and
reports `totalWithdrawn = W * months`; in particular corpus `100000` at
rate `0` with withdrawal `5000` yields `months = 20`.
-/
theorem claim_C3 :
    (∀ C W rate : ℝ, 0 < C → 0 < W → 0 ≤ rate → C * (rate / 1200) < W →
      (calculateSWP C W rate).isIndefinite = false ∧
        (calculateSWP C W rate).months =
          ⌈if rate / 100 / 12 = 0 then C / W
            else -Real.log (1 - C * (rate / 100 / 12) / W) /
              Real.log (1 + rate / 100 / 12)⌉ ∧
        (calculateSWP C W rate).years = (calculateSWP C W rate).months / 12 ∧
        (calculateSWP C W rate).remainingMonths =
          (calculateSWP C W rate).months % 12 ∧
        (calculateSWP C W rate).totalWithdrawn =
          W * (((calculateSWP C W rate).months : ℤ) : ℝ)) ∧
      (calculateSWP 100000 5000 0).months = 20 := by
  constructor
  · intro C W rate _ _ _ hlt
    have hr1200 : rate / 100 / 12 = rate / 1200 := by
      rw [div_div]
      norm_num
    have hnot : ¬ W ≤ C * (rate / 100 / 12) := by
      rw [hr1200]
      exact not_le.mpr hlt
    have hind : (calculateSWP C W rate).isIndefinite = false := by
      simp only [calculateSWP, if_neg hnot]
    have hmonths : (calculateSWP C W rate).months =
        ⌈if rate / 100 / 12 = 0 then C / W
          else -Real.log (1 - C * (rate / 100 / 12) / W) /
            Real.log (1 + rate / 100 / 12)⌉ := by
      simp only [calculateSWP, if_neg hnot]
    have hyears : (calculateSWP C W rate).years =
        (calculateSWP C W rate).months / 12 := by
      simp only [calculateSWP, if_neg hnot]
      exact floor_intCast_div_twelve _
    have hrem : (calculateSWP C W rate).remainingMonths =
        (calculateSWP C W rate).months % 12 := by
      simp only [calculateSWP, if_neg hnot]
    have htot : (calculateSWP C W rate).totalWithdrawn =
        W * (((calculateSWP C W rate).months : ℤ) : ℝ) := by
      simp only [calculateSWP, if_neg hnot]
    exact ⟨hind, hmonths, hyears, hrem, htot⟩
  · have hnot : ¬ (5000 : ℝ) ≤ 100000 * ((0 : ℝ) / 100 / 12) := by norm_num
    simp only [calculateSWP, if_neg hnot]
    have hz : (0 : ℝ) / 100 / 12 = 0 := by norm_num
    rw [if_pos hz]
    have h20 : (100000 : ℝ) / 5000 = ((20 : ℤ) : ℝ) := by norm_num
    rw [h20, Int.ceil_intCast]

/-- Witness for claim C3 at corpus `100000`, withdrawal `5000`,
rate `0`. -/
theorem claim_C3_witness :
    ((0 : ℝ) < 100000 ∧ (0 : ℝ) < 5000 ∧ (0 : ℝ) ≤ 0 ∧
        (100000 : ℝ) * (0 / 1200) < 5000) ∧
      (calculateSWP 100000 5000 0).isIndefinite = false ∧
      (calculateSWP 100000 5000 0).totalWithdrawn =
        5000 * (((calculateSWP 100000 5000 0).months : ℤ) : ℝ) :=
  ⟨⟨by norm_num, by norm_num, by norm_num, by norm_num⟩,
    (claim_C3.1 100000 5000 0 (by norm_num) (by norm_num) (by norm_num)
      (by norm_num)).1,
    (claim_C3.1 100000 5000 0 (by norm_num) (by norm_num) (by norm_num)
      (by norm_num)).2.2.2.2⟩

/-! ## Claim C4 -/

/--
Claim C4: for corpus `C > 0`, withdrawal `W > 0` and rate `≥ 0`,
`calculateSWP` returns the indefinite result (all duration fields and
`totalWithdrawn` zero, `isIndefinite = true`) if and only if
`W ≤ C * r` with `r = rate/1200`.  The case is classified by a branch,
not an error: `calculateSWP` is a total function.
-/
theorem claim_C4 :
    ∀ C W rate : ℝ, 0 < C → 0 < W → 0 ≤ rate →
      (((calculateSWP C W rate).isIndefinite = true ↔ W ≤ C * (rate / 1200)) ∧
        (W ≤ C * (rate / 1200) →
          (calculateSWP C W rate).months = 0 ∧
            (calculateSWP C W rate).years = 0 ∧
            (calculateSWP C W rate).remainingMonths = 0 ∧
            (calculateSWP C W rate).totalWithdrawn = 0)) := by
  intro C W rate _ _ _
  have hr1200 : rate / 100 / 12 = rate / 1200 := by
    rw [div_div]
    norm_num
  by_cases hc : W ≤ C * (rate / 1200)
  · have hc' : W ≤ C * (rate / 100 / 12) := by rw [hr1200]; exact hc
    refine ⟨⟨fun _ => hc, fun _ => ?_⟩, fun _ => ⟨?_, ?_, ?_, ?_⟩⟩ <;>
      simp only [calculateSWP, if_pos hc']
  · have hc' : ¬ W ≤ C * (rate / 100 / 12) := by rw [hr1200]; exact hc
    have hfalse : (calculateSWP C W rate).isIndefinite = false := by
      simp only [calculateSWP, if_neg hc']
    refine ⟨⟨fun hh => ?_, fun hh => absurd hh hc⟩, fun h => absurd h hc⟩
    rw [hfalse] at hh
    exact absurd hh (by simp)

/-- Witness for claim C4: corpus `1000000` at 10% with withdrawal
`5000` is classified indefinite (monthly interest `8333.33... ≥ 5000`). -/
theorem claim_C4_witness :
    ((0 : ℝ) < 1000000 ∧ (0 : ℝ) < 5000 ∧ (0 : ℝ) ≤ 10) ∧
      (calculateSWP 1000000 5000 10).isIndefinite = true ∧
      (calculateSWP 1000000 5000 10).months = 0 :=
  ⟨⟨by norm_num, by norm_num, by norm_num⟩,
    (claim_C4 1000000 5000 10 (by norm_num) (by norm_num) (by norm_num)).1.mpr
      (by norm_num),
    ((claim_C4 1000000 5000 10 (by norm_num) (by norm_num) (by norm_num)).2
      (by norm_num)).1⟩

/-! ## Claim C10 -/

/--
Claim C10 (implicit): on the finite branch (`W > C * rate/1200`, with
`C, W > 0`, `rate ≥ 0`) `calculateSWP` always returns `months ≥ 1`,
`months = 12 * years + remainingMonths` and
`0 ≤ remainingMonths ≤ 11`; hence `months = 0` only occurs together
with `isIndefinite = true`, and the zero duration fields never collide
with a genuine finite outcome.
-/
theorem claim_C10 :
    ∀ C W rate : ℝ, 0 < C → 0 < W → 0 ≤ rate → C * (rate / 1200) < W →
      1 ≤ (calculateSWP C W rate).months ∧
        (calculateSWP C W rate).months =
          12 * (calculateSWP C W rate).years +
            (calculateSWP C W rate).remainingMonths ∧
        0 ≤ (calculateSWP C W rate).remainingMonths ∧
        (calculateSWP C W rate).remainingMonths ≤ 11 := by
  intro C W rate hC hW hrate hlt
  have hr1200 : rate / 100 / 12 = rate / 1200 := by
    rw [div_div]
    norm_num
  have hnot : ¬ W ≤ C * (rate / 100 / 12) := by
    rw [hr1200]
    exact not_le.mpr hlt
  have hrpos : 0 ≤ rate / 100 / 12 := by positivity
  have hn : 0 < (if rate / 100 / 12 = 0 then C / W
      else -Real.log (1 - C * (rate / 100 / 12) / W) /
        Real.log (1 + rate / 100 / 12)) := by
    rcases eq_or_ne (rate / 100 / 12) 0 with hz | hz
    · rw [if_pos hz]
      exact div_pos hC hW
    · rw [if_neg hz]
      have hr : 0 < rate / 100 / 12 := lt_of_le_of_ne hrpos (Ne.symm hz)
      have hx0 : 0 < C * (rate / 100 / 12) / W := div_pos (mul_pos hC hr) hW
      have hx1 : C * (rate / 100 / 12) / W < 1 := by
        rw [div_lt_one hW, hr1200]
        exact hlt
      have hlog1 : Real.log (1 - C * (rate / 100 / 12) / W) < 0 :=
        Real.log_neg (by linarith) (by linarith)
      refine div_pos ?_ (Real.log_pos (by linarith))
      linarith
  have hceil : 0 < ⌈if rate / 100 / 12 = 0 then C / W
      else -Real.log (1 - C * (rate / 100 / 12) / W) /
        Real.log (1 + rate / 100 / 12)⌉ := Int.ceil_pos.mpr hn
  simp only [calculateSWP, if_neg hnot]
  rw [floor_intCast_div_twelve]
  refine ⟨by omega, by omega, by omega, by omega⟩

/-- Witness for claim C10 at corpus `100000`, withdrawal `5000`,
rate `0`. -/
theorem claim_C10_witness :
    ((0 : ℝ) < 100000 ∧ (0 : ℝ) < 5000 ∧ (0 : ℝ) ≤ 0 ∧
        (100000 : ℝ) * (0 / 1200) < 5000) ∧
      1 ≤ (calculateSWP 100000 5000 0).months ∧
      (calculateSWP 100000 5000 0).months =
        12 * (calculateSWP 100000 5000 0).years +
          (calculateSWP 100000 5000 0).remainingMonths :=
  ⟨⟨by norm_num, by norm_num, by norm_num, by norm_num⟩,
    (claim_C10 100000 5000 0 (by norm_num) (by norm_num) (by norm_num)
      (by norm_num)).1,
    (claim_C10 100000 5000 0 (by norm_num) (by norm_num) (by norm_num)
      (by norm_num)).2.1⟩

/-! ## Claim C5 -/

/--
Claim C5, counterexample: the claim quantifies over *every* rate `r`,
but at `r = -200` (lumpsum base `1 + r/100 = -1`) the round trip
returns `0`, not `-200`: `calculateLumpsum(100000, -200, 10).futureValue
= 100000 * (-1)^10 = 100000`, and `calculateCAGR(100000, 100000, 10) = 0`
(JavaScript agrees: `Math.pow(1, 0.1) = 1`), which is not within `0.001`
of `-200`.
-/
theorem claim_C5_counterexample :
    calculateCAGR 100000 ((calculateLumpsum 100000 (-200) 10).futureValue : ℝ)
        10 = 0 ∧
      ¬ |calculateCAGR 100000 ((calculateLumpsum 100000 (-200) 10).futureValue : ℝ)
          10 - (-200)| ≤ 1 / 1000 := by
  have hfv : (calculateLumpsum 100000 (-200) 10).futureValue = 100000 := by
    norm_num [calculateLumpsum]
  have h : calculateCAGR 100000
      ((calculateLumpsum 100000 (-200) 10).futureValue : ℝ) 10 = 0 := by
    rw [hfv]
    unfold calculateCAGR
    norm_num [Real.one_rpow]
  refine ⟨h, ?_⟩
  rw [h]
  norm_num

/--
Claim C5 (amended): CAGR is the exact algebraic inverse of lumpsum
valuation for every principal `P > 0`, duration `y > 0` and rate `r`
with positive base `1 + r/100 > 0` (every rate above `-100`%):
`calculateCAGR(P, calculateLumpsum(P, r, y).futureValue, y) = r`
exactly, hence in particular within `0.001` for
`r ∈ {6, 10, 15, 20, 25}` and `y = 10`.
-/
theorem claim_C5 (P r : ℚ) (y : ℕ) (hP : 0 < P) (hy : 0 < y)
    (hr : 0 < 1 + r / 100) :
    calculateCAGR (P : ℝ) ((calculateLumpsum P r y).futureValue : ℝ) (y : ℝ) =
      (r : ℝ) := by
  have hfv : ((calculateLumpsum P r y).futureValue : ℝ) =
      (P : ℝ) * ((1 : ℝ) + (r : ℝ) / 100) ^ y := by
    show ((P * (1 + r / 100) ^ y : ℚ) : ℝ) = _
    push_cast
    ring
  have hb : (0 : ℝ) < 1 + (r : ℝ) / 100 := by exact_mod_cast hr
  have hPne : (P : ℝ) ≠ 0 := by exact_mod_cast hP.ne'
  have hyne : ((y : ℕ) : ℝ) ≠ 0 := Nat.cast_ne_zero.mpr hy.ne'
  unfold calculateCAGR
  rw [hfv, mul_div_cancel_left₀ _ hPne, ← Real.rpow_natCast _ y,
    ← Real.rpow_mul hb.le, mul_one_div_cancel hyne, Real.rpow_one]
  ring

/-- Witness for claim C5 at `P = 100000`, `r = 6`, `y = 10`. -/
theorem claim_C5_witness :
    ((0 : ℚ) < 100000 ∧ (0 : ℕ) < 10 ∧ (0 : ℚ) < 1 + 6 / 100) ∧
      calculateCAGR ((100000 : ℚ) : ℝ)
        ((calculateLumpsum 100000 6 10).futureValue : ℝ) ((10 : ℕ) : ℝ) =
        ((6 : ℚ) : ℝ) :=
  ⟨⟨by norm_num, by norm_num, by norm_num⟩,
    claim_C5 100000 6 10 (by norm_num) (by norm_num) (by norm_num)⟩
